import Mathlib

/-!
Shallow embedding of the lazyApply job-application orchestrator:
  - the per-target rate limiter (src/utils/rateLimiter.ts, config defaults from
    src/config/index.ts),
  - the queue orchestrator and authentication-interrupt handling of
    JobApplicator (src/services/jobApplicator.ts): applyToJob, processQueue,
    continueAfterLogin, addToQueue, getAutomationStatus.

External effects (browser navigation, the platform handler, screenshots) are
modelled by an explicit event describing what the external world does during
one submission attempt.  Times are Int milliseconds (JS Date.now()).  The job
store and the rate limiter's recordApplication calls are recorded as explicit
traces so that claims about "what was invoked" are observable.  URL-based
platform detection (src/utils/platformDetector.ts detectPlatformFromUrl) is
not modelled: jobs carry their already-resolved platform, which none of the
claims depend on.  Browser/context creation is modelled as non-failing.
-/

namespace LazyApply

/-! Platforms (src/types/index.ts) -/

inductive Platform
  | linkedin | lever | greenhouse | wellfound | workable
  | company_website | naukri | indeed | unknown
deriving DecidableEq

def Platform.name : Platform → String
  | .linkedin => "linkedin"
  | .lever => "lever"
  | .greenhouse => "greenhouse"
  | .wellfound => "wellfound"
  | .workable => "workable"
  | .company_website => "company_website"
  | .naukri => "naukri"
  | .indeed => "indeed"
  | .unknown => "unknown"

/-! Rate limiter configuration (src/config/index.ts, env-variable defaults) -/

structure RateLimitConfig where
  delayMin : Int
  delayMax : Int
  hourlyLimit : Nat
  dailyLimit : Nat
deriving DecidableEq

/-- config.rateLimits lookup with fallback to the default entry. -/
def getRateLimitConfig : Platform → RateLimitConfig
  | .linkedin => ⟨300000, 480000, 10, 50⟩
  | .lever => ⟨120000, 240000, 20, 100⟩
  | .greenhouse => ⟨120000, 240000, 20, 100⟩
  | .wellfound => ⟨180000, 300000, 15, 75⟩
  | .workable => ⟨120000, 240000, 20, 100⟩
  | _ => ⟨120000, 240000, 20, 100⟩

/-! Rate limiter state (src/utils/rateLimiter.ts) -/

structure PlatformUsage where
  hourlyCount : Nat
  dailyCount : Nat
  lastApplicationTime : Int
  hourlyResetTime : Int
  dailyResetTime : Int
deriving DecidableEq

/-- The entry getUsage inserts for a platform seen for the first time. -/
def initialUsage (now : Int) : PlatformUsage :=
  ⟨0, 0, 0, now + 3600000, now + 86400000⟩

/-- RateLimiter.getUsage: read the entry, lazily creating it. -/
def getUsage (now : Int) (u : Option PlatformUsage) : PlatformUsage :=
  u.getD (initialUsage now)

/-- RateLimiter.checkAndResetLimits: lazily roll the hourly/daily windows. -/
def checkAndResetLimits (now : Int) (u : PlatformUsage) : PlatformUsage :=
  let u1 := if u.hourlyResetTime ≤ now then
    { u with hourlyCount := 0, hourlyResetTime := now + 3600000 } else u
  if u1.dailyResetTime ≤ now then
    { u1 with dailyCount := 0, dailyResetTime := now + 86400000 } else u1

/-- Math.ceil(a / b) for a ≥ 0 < b, as used in the denial messages. -/
def ceilDivPos (a b : Int) : Int := (a + b - 1) / b

/-- Denial reason for the daily-cap guard. -/
def dailyLimitMessage (cap : Nat) (waitTime : Int) : String :=
  let m := ceilDivPos waitTime 60000
  s!"Daily limit reached ({cap}). Resets in {m} minutes."

/-- Denial reason for the hourly-cap guard. -/
def hourlyLimitMessage (cap : Nat) (waitTime : Int) : String :=
  let m := ceilDivPos waitTime 60000
  s!"Hourly limit reached ({cap}). Resets in {m} minutes."

/-- Denial reason for the minimum-spacing guard. -/
def spacingMessage (waitTime : Int) : String :=
  let sec := ceilDivPos waitTime 1000
  s!"Please wait {sec} seconds before next application."

structure CanApplyResult where
  allowed : Bool
  waitTime : Option Int
  reason : Option String
deriving DecidableEq

/-- RateLimiter.canApply on a single platform's entry; returns the result
together with the (lazily created / window-rolled) entry that the mutation
leaves in the usage map. -/
def canApply (cfg : RateLimitConfig) (now : Int) (u0 : Option PlatformUsage) :
    CanApplyResult × PlatformUsage :=
  let u := checkAndResetLimits now (getUsage now u0)
  if cfg.dailyLimit ≤ u.dailyCount then
    let w := u.dailyResetTime - now
    (⟨false, some w, some (dailyLimitMessage cfg.dailyLimit w)⟩, u)
  else if cfg.hourlyLimit ≤ u.hourlyCount then
    let w := u.hourlyResetTime - now
    (⟨false, some w, some (hourlyLimitMessage cfg.hourlyLimit w)⟩, u)
  else
    let elapsed := now - u.lastApplicationTime
    if elapsed < cfg.delayMin then
      let w := cfg.delayMin - elapsed
      (⟨false, some w, some (spacingMessage w)⟩, u)
    else
      (⟨true, none, none⟩, u)

/-- RateLimiter.recordApplication on a single platform's entry. -/
def recordApplication (now : Int) (u0 : Option PlatformUsage) : PlatformUsage :=
  let u := checkAndResetLimits now (getUsage now u0)
  { u with
    hourlyCount := u.hourlyCount + 1
    dailyCount := u.dailyCount + 1
    lastApplicationTime := now }

/-! Jobs, queue items, job-store observations (src/types/index.ts,
src/services/jobStore.ts) -/

structure Job where
  id : String
  platform : Platform
  url : String
deriving DecidableEq

structure QueueItem where
  job : Job
  retryCount : Nat
deriving DecidableEq

/-- Status values JobApplicator writes through jobStore.updateJobStatus. -/
inductive StoreStatus
  | ready | needs_input | applying | applied | failed | skipped | login_required
deriving DecidableEq

/-- Observable calls into the job store made by the orchestrator. -/
inductive StoreEvent
  | status (jobId : String) (st : StoreStatus) (error : Option String)
  | inputs (jobId : String) (fields : List String)
deriving DecidableEq

/-! Application results and handler outcomes
(jobApplicator.ts ApplicationResult; §4.5 contract) -/

inductive AppStatus
  | applied | needs_input | failed | login_required
deriving DecidableEq

structure ApplicationResult where
  success : Bool
  jobId : String
  status : AppStatus
  message : String
  error : Option String
  loginUrl : Option String
  requiredInputs : List String
deriving DecidableEq

instance {α β : Type} [DecidableEq α] [DecidableEq β] : DecidableEq (Except α β) :=
  fun a b =>
  match a, b with
  | .ok x, .ok y =>
      if h : x = y then isTrue (by rw [h]) else isFalse (by simp [h])
  | .error x, .error y =>
      if h : x = y then isTrue (by rw [h]) else isFalse (by simp [h])
  | .ok _, .error _ => isFalse (by simp)
  | .error _, .ok _ => isFalse (by simp)

/-- What a platform handler's apply() returned (when it returned). -/
inductive HandlerOutcome
  | submitted
  | needsInput (fields : List String)
  | failed (message : String) (error : Option String)
  | loginRequired (loginUrl : Option String) (message : Option String)
deriving DecidableEq

/-- The ApplicationResult a handler outcome stands for.  The repository's
handlers return success = true exactly when the application was submitted. -/
def HandlerOutcome.toResult (o : HandlerOutcome) (jobId : String) : ApplicationResult :=
  match o with
  | .submitted =>
      ⟨true, jobId, .applied, "Application submitted", none, none, []⟩
  | .needsInput fs =>
      ⟨false, jobId, .needs_input, "Additional input required", none, none, fs⟩
  | .failed msg err =>
      ⟨false, jobId, .failed, msg, err, none, []⟩
  | .loginRequired url msg =>
      ⟨false, jobId, .login_required, msg.getD "", none, url, []⟩

/-- src/utils/platformDetector.ts getLoginUrl. -/
def getLoginUrl : Platform → Option String
  | .linkedin => some "https://www.linkedin.com/login"
  | .wellfound => some "https://wellfound.com/login"
  | .indeed => some "https://secure.indeed.com/account/login"
  | .naukri => some "https://www.naukri.com/nlogin/login"
  | _ => none

/-- result.loginUrl || getLoginUrl(job.platform) || page.url()
(the page is at the job's URL when this is evaluated). -/
def resolveLoginUrl (fromResult : Option String) (p : Platform) (pageUrl : String) :
    String :=
  fromResult.getD ((getLoginUrl p).getD pageUrl)

def startsWithChars : List Char → List Char → Bool
  | _, [] => true
  | [], _ :: _ => false
  | c :: cs, p :: ps => c == p && startsWithChars cs ps

def containsChars : List Char → List Char → Bool
  | [], pat => pat.isEmpty
  | c :: cs, pat => startsWithChars (c :: cs) pat || containsChars cs pat

/-- JavaScript String.prototype.includes. -/
def stringIncludes (s pat : String) : Bool :=
  containsChars s.toList pat.toList

/-- result.error?.includes('Bot detection') (processQueue's retry suppression). -/
def errorMentionsBotDetection (e : Option String) : Bool :=
  match e with
  | some m => stringIncludes m "Bot detection"
  | none => false

/-! Orchestrator state (the JobApplicator instance's fields plus observation
traces) -/

structure PageHandle where
  closed : Bool
deriving DecidableEq

/-- activePage is usable for submission: non-null and not closed. -/
def pageRetained (p : Option PageHandle) : Bool :=
  match p with
  | some h => !h.closed
  | none => false

structure LoginState where
  required : Bool
  platform : Option Platform
  loginUrl : Option String
  jobId : Option String
deriving DecidableEq

def LoginState.clear : LoginState := ⟨false, none, none, none⟩

structure ApplicatorState where
  queue : List QueueItem
  isProcessing : Bool
  isPaused : Bool
  currentJob : Option Job
  activePage : Option PageHandle
  loginState : LoginState
  usage : Platform → Option PlatformUsage
  storeJobs : List Job
  storeTrace : List StoreEvent
  recordTrace : List Platform
  dequeueTrace : List (String × Bool)

/-- jobStore.updateJobStatus observation. -/
def storeStatus (s : ApplicatorState) (jobId : String) (st : StoreStatus)
    (err : Option String) : ApplicatorState :=
  { s with storeTrace := s.storeTrace ++ [.status jobId st err] }

/-- jobStore.setRequiredInputs observation. -/
def storeInputs (s : ApplicatorState) (jobId : String) (fs : List String) :
    ApplicatorState :=
  { s with storeTrace := s.storeTrace ++ [.inputs jobId fs] }

/-- jobStore.getJob. -/
def getJob (s : ApplicatorState) (jobId : String) : Option Job :=
  s.storeJobs.find? (fun j => j.id == jobId)

/-- rateLimiter.recordApplication invoked for a platform: update the usage
map and append to the observation trace. -/
def doRecordApplication (s : ApplicatorState) (p : Platform) (now : Int) :
    ApplicatorState :=
  { s with
    usage := Function.update s.usage p (some (recordApplication now (s.usage p)))
    recordTrace := s.recordTrace ++ [p] }

/-! One submission attempt's external behaviour.  throwEarly is an exception
raised during navigation, the bot-detection check, or inside the handler (all
inside applyToJob's try, before the handler's outcome is acted on); throwLate
is the post-outcome screenshot (jobApplicator.ts line 233 / 257) throwing
after the outcome's bookkeeping ran.  catchShot = some m means the
un-protected screenshot inside the catch block (line 277) itself throws m. -/

inductive AttemptStep
  | throwEarly (msg : String) (catchShot : Option String)
  | botDetected
  | handlerOk (o : HandlerOutcome)
  | throwLate (o : HandlerOutcome) (msg : String) (catchShot : Option String)
deriving DecidableEq

structure AttemptEvent where
  now : Int
  step : AttemptStep
deriving DecidableEq

/-- The attempt's platform handler reported Submitted (whether or not the
final screenshot afterwards threw). -/
def stepSubmitted : AttemptStep → Bool
  | .handlerOk .submitted => true
  | .throwLate .submitted _ _ => true
  | _ => false

/-- The finally block of applyToJob: clear currentJob unless a login is
pending. -/
def finallyStep (s : ApplicatorState) : ApplicatorState :=
  if s.loginState.required then s else { s with currentJob := none }

/-- Bookkeeping between the handler returning and the final screenshot:
login_required sets the login state and writes the store; success records the
application with the rate limiter. -/
def outcomeEffects (o : HandlerOutcome) (job : Job) (now : Int)
    (s : ApplicatorState) : ApplicatorState :=
  match o with
  | .loginRequired url _ =>
      let s1 := { s with loginState :=
        ⟨true, some job.platform, some (resolveLoginUrl url job.platform job.url),
         some job.id⟩ }
      storeStatus s1 job.id .login_required none
  | .submitted => doRecordApplication s job.platform now
  | _ => s

/-- JobApplicator.applyToJob.  Except.error m is an exception escaping
applyToJob itself (the catch block's screenshot threw m). -/
def applyToJob (ev : AttemptEvent) (job : Job) (s0 : ApplicatorState) :
    ApplicatorState × Except String ApplicationResult :=
  let s := { s0 with currentJob := some job }
  let cfg := getRateLimitConfig job.platform
  let rc := canApply cfg ev.now (s.usage job.platform)
  let s := { s with usage := Function.update s.usage job.platform (some rc.2) }
  if rc.1.allowed then
    let s := if pageRetained s.activePage then s
             else { s with activePage := some ⟨false⟩ }
    match ev.step with
    | .throwEarly msg catchShot =>
        (match catchShot with
         | some m => (finallyStep s, .error m)
         | none =>
             let s := { s with activePage := none }
             (finallyStep s,
              .ok ⟨false, job.id, .failed, "Application failed: " ++ msg,
                   some msg, none, []⟩))
    | .botDetected =>
        (finallyStep s,
         .ok ⟨false, job.id, .failed, "Bot detection triggered",
              some "Bot detection triggered. Please try again later.", none, []⟩)
    | .handlerOk o =>
        let s := outcomeEffects o job ev.now s
        (match o with
         | .loginRequired url msg =>
             let pname := job.platform.name
             (finallyStep s,
              .ok ⟨false, job.id, .login_required,
                   msg.getD s!"Please login to {pname} in the browser window",
                   none, some (resolveLoginUrl url job.platform job.url), []⟩)
         | _ =>
             let s := { s with activePage := none }
             (finallyStep s, .ok (o.toResult job.id)))
    | .throwLate o msg catchShot =>
        let s := outcomeEffects o job ev.now s
        (match catchShot with
         | some m => (finallyStep s, .error m)
         | none =>
             let s := { s with activePage := none }
             (finallyStep s,
              .ok ⟨false, job.id, .failed, "Application failed: " ++ msg,
                   some msg, none, []⟩))
  else
    (finallyStep s,
     .ok ⟨false, job.id, .failed, rc.1.reason.getD "Rate limit exceeded",
          rc.1.reason, none, []⟩)

/-- JobApplicator.processQueue's while loop.  The event list scripts one
attempt per iteration; the loop in the source runs until the queue empties or
a pause / pending login stops it, which the model follows while events
remain.  The String result is an exception escaping the loop body. -/
def processLoop : List AttemptEvent → ApplicatorState →
    ApplicatorState × Option String
  | [], s => (s, none)
  | ev :: evs, s =>
    match s.queue with
    | [] => (s, none)
    | item :: rest =>
      if s.isPaused || s.loginState.required then (s, none)
      else
        let s1 := { s with
          queue := rest
          dequeueTrace := s.dequeueTrace ++
            [(item.job.id, pageRetained s.activePage)] }
        let s2 := storeStatus s1 item.job.id .applying none
        let p := applyToJob ev item.job s2
        match p.2 with
        | .error e => (p.1, some e)
        | .ok r =>
          if r.status = .login_required then
            ({ p.1 with queue := item :: p.1.queue }, none)
          else
            let s3 :=
              if r.success then storeStatus p.1 item.job.id .applied none
              else if r.status = .needs_input then
                storeInputs p.1 item.job.id r.requiredInputs
              else if item.retryCount < 2 &&
                  !(errorMentionsBotDetection r.error) then
                { p.1 with queue := p.1.queue ++ [⟨item.job, item.retryCount + 1⟩] }
              else
                storeStatus p.1 item.job.id .failed r.error
            processLoop evs s3

/-- JobApplicator.processQueue: the guard, the loop, and the finally block
that resets isProcessing on every exit path. -/
def processQueue (evs : List AttemptEvent) (s : ApplicatorState) :
    ApplicatorState × Option String :=
  if s.isProcessing || s.isPaused || s.loginState.required then (s, none)
  else
    let p := processLoop evs { s with isProcessing := true }
    ({ p.1 with isProcessing := false }, p.2)

/-! Resume-after-authentication (JobApplicator.continueAfterLogin).  The
resume attempt's external behaviour: either the navigation / handler throws,
or the handler returns an outcome.  Job-store calls and the (try/catch
protected) screenshot are modelled as non-throwing here, matching the source
where the only un-protected awaits are the goto / waitForPageLoad /
handler.apply calls. -/

inductive ResumeStep
  | throwDuring (msg : String)
  | handlerOk (o : HandlerOutcome)
deriving DecidableEq

def rstepRenewsLogin : ResumeStep → Bool
  | .handlerOk (.loginRequired _ _) => true
  | _ => false

/-- JobApplicator.continueAfterLogin.  `fresh` scripts the full fresh
applyToJob attempt taken when no page is retained.  none models the source
returning null ("no pending login" / job not found). -/
def continueAfterLogin (now : Int) (rstep : ResumeStep) (fresh : AttemptEvent)
    (s : ApplicatorState) :
    ApplicatorState × Option (Except String ApplicationResult) :=
  match s.loginState.required, s.loginState.jobId with
  | true, some jid =>
    (match getJob s jid with
     | none => ({ s with loginState := LoginState.clear }, none)
     | some job =>
       let s1 := storeStatus s job.id .applying none
       if pageRetained s1.activePage then
         let s2 := { s1 with loginState := LoginState.clear }
         match rstep with
         | .throwDuring msg =>
             let s3 := { s2 with loginState := LoginState.clear, activePage := none }
             let s4 := storeStatus s3 job.id .failed (some msg)
             (s4, some (.ok ⟨false, job.id, .failed,
               "Application failed after login: " ++ msg, some msg, none, []⟩))
         | .handlerOk o =>
             match o with
             | .submitted =>
                 let s3 := doRecordApplication s2 job.platform now
                 let s4 := storeStatus s3 job.id .applied none
                 (({ s4 with activePage := none }), some (.ok (o.toResult job.id)))
             | .needsInput fs =>
                 let s3 := storeInputs s2 job.id fs
                 (({ s3 with activePage := none }), some (.ok (o.toResult job.id)))
             | .loginRequired url _ =>
                 let s3 := { s2 with loginState :=
                   ⟨true, some job.platform,
                    some (resolveLoginUrl url job.platform job.url), some job.id⟩ }
                 let s4 := storeStatus s3 job.id .login_required none
                 (s4, some (.ok (o.toResult job.id)))
             | .failed _ err =>
                 let s3 := storeStatus s2 job.id .failed err
                 (({ s3 with activePage := none }), some (.ok (o.toResult job.id)))
       else
         let s2 := { s1 with loginState := LoginState.clear }
         let p := applyToJob fresh job s2
         (p.1, some p.2))
  | _, _ => (s, none)

/-- JobApplicator.addToQueue: deduplicate by job id against the current
queue, append new jobs with retryCount 0. -/
def addToQueue (jobs : List Job) (q : List QueueItem) : List QueueItem :=
  jobs.foldl
    (fun acc j =>
      if acc.any (fun it => it.job.id == j.id) then acc else acc ++ [⟨j, 0⟩])
    q

/-! Automation status (JobApplicator.getAutomationStatus); the message string
is omitted, the claims only read the flags. -/

structure AutomationStatus where
  isActive : Bool
  isPaused : Bool
  loginRequired : Bool
  loginPlatform : Option Platform
  loginUrl : Option String
  currentJob : Option Job
  queueLength : Nat
deriving DecidableEq

def getAutomationStatus (s : ApplicatorState) : AutomationStatus :=
  ⟨s.isProcessing || s.loginState.required, s.isPaused, s.loginState.required,
   s.loginState.platform, s.loginState.loginUrl, s.currentJob, s.queue.length⟩

/-! Concrete fixtures used by witnesses and counterexamples. -/

def jobA : Job := ⟨"job-A", .linkedin, "https://www.linkedin.com/jobs/view/1"⟩

def jobB : Job := ⟨"job-B", .greenhouse, "https://boards.greenhouse.io/acme/jobs/2"⟩

/-- A realistic epoch-milliseconds clock value. -/
def tNow : Int := 1700000000000

def emptyState : ApplicatorState :=
  { queue := [], isProcessing := false, isPaused := false, currentJob := none
    activePage := none, loginState := LoginState.clear, usage := fun _ => none
    storeJobs := [], storeTrace := [], recordTrace := [], dequeueTrace := [] }

/-- A state frozen for authentication on jobA with the page retained. -/
def frozenState : ApplicatorState :=
  { emptyState with
    queue := [⟨jobB, 0⟩]
    activePage := some ⟨false⟩
    loginState := ⟨true, some Platform.linkedin,
      some "https://www.linkedin.com/login", some "job-A"⟩
    storeJobs := [jobA, jobB]
    currentJob := some jobA }

/-- The same frozen state after the retained page was closed externally. -/
def frozenNoPageState : ApplicatorState :=
  { frozenState with activePage := none }

/-! Theorems -/

/-- C2: on the window-rolled usage entry, canApply evaluates exactly the
daily-cap, hourly-cap and minimum-spacing guards in that order; the first
violated guard determines the denial reason, the wait time is the daily or
hourly window end minus now for the caps and the configured minimum spacing
minus the elapsed time for the spacing guard, and when no guard is violated
the check allows. -/
theorem canApply_guard_order (cfg : RateLimitConfig) (now : Int)
    (u0 : Option PlatformUsage) :
    (cfg.dailyLimit ≤ (checkAndResetLimits now (getUsage now u0)).dailyCount →
      (canApply cfg now u0).1 =
        ⟨false, some ((checkAndResetLimits now (getUsage now u0)).dailyResetTime - now),
         some (dailyLimitMessage cfg.dailyLimit
           ((checkAndResetLimits now (getUsage now u0)).dailyResetTime - now))⟩) ∧
    ((checkAndResetLimits now (getUsage now u0)).dailyCount < cfg.dailyLimit →
      cfg.hourlyLimit ≤ (checkAndResetLimits now (getUsage now u0)).hourlyCount →
      (canApply cfg now u0).1 =
        ⟨false, some ((checkAndResetLimits now (getUsage now u0)).hourlyResetTime - now),
         some (hourlyLimitMessage cfg.hourlyLimit
           ((checkAndResetLimits now (getUsage now u0)).hourlyResetTime - now))⟩) ∧
    ((checkAndResetLimits now (getUsage now u0)).dailyCount < cfg.dailyLimit →
      (checkAndResetLimits now (getUsage now u0)).hourlyCount < cfg.hourlyLimit →
      now - (checkAndResetLimits now (getUsage now u0)).lastApplicationTime <
        cfg.delayMin →
      (canApply cfg now u0).1 =
        ⟨false,
         some (cfg.delayMin -
           (now - (checkAndResetLimits now (getUsage now u0)).lastApplicationTime)),
         some (spacingMessage (cfg.delayMin -
           (now - (checkAndResetLimits now (getUsage now u0)).lastApplicationTime)))⟩) ∧
    ((checkAndResetLimits now (getUsage now u0)).dailyCount < cfg.dailyLimit →
      (checkAndResetLimits now (getUsage now u0)).hourlyCount < cfg.hourlyLimit →
      cfg.delayMin ≤
        now - (checkAndResetLimits now (getUsage now u0)).lastApplicationTime →
      (canApply cfg now u0).1 = ⟨true, none, none⟩) := by
  refine ⟨fun h => ?_, fun h1 h2 => ?_, fun h1 h2 h3 => ?_, fun h1 h2 h3 => ?_⟩
  · simp [canApply, h]
  · simp [canApply, Nat.not_le.mpr h1, h2]
  · simp [canApply, Nat.not_le.mpr h1, Nat.not_le.mpr h2, h3]
  · simp [canApply, Nat.not_le.mpr h1, Nat.not_le.mpr h2, Int.not_lt.mpr h3]

/-- Witness for C2: a fresh linkedin entry checked long after epoch has no
guard violated, and the same entry with the hourly cap consumed is denied
with waitTime = hourlyWindowEnd − now. -/
theorem canApply_guard_order_witness :
    ((checkAndResetLimits tNow (getUsage tNow none)).dailyCount <
        (getRateLimitConfig .linkedin).dailyLimit ∧
      (canApply (getRateLimitConfig .linkedin) tNow none).1 = ⟨true, none, none⟩) ∧
    ((canApply (getRateLimitConfig .linkedin) tNow
        (some ⟨10, 10, tNow - 400000, tNow + 1000000, tNow + 2000000⟩)).1.allowed
        = false ∧
      (canApply (getRateLimitConfig .linkedin) tNow
        (some ⟨10, 10, tNow - 400000, tNow + 1000000, tNow + 2000000⟩)).1.waitTime
        = some 1000000) := by
  constructor
  · refine ⟨by decide, ?_⟩
    exact (canApply_guard_order (getRateLimitConfig .linkedin) tNow none).2.2.2
      (by decide) (by decide) (by decide)
  · have h := (canApply_guard_order (getRateLimitConfig .linkedin) tNow
      (some ⟨10, 10, tNow - 400000, tNow + 1000000, tNow + 2000000⟩)).2.1
      (by decide) (by decide)
    rw [h]
    exact ⟨rfl, by decide⟩

/-- C9: enqueue deduplicates by job id: a job whose id is already queued
leaves the queue unchanged, a job with a new id is appended at the back with
retryCount 0, and any batch only ever extends the queue at the back with
retryCount-0 items. -/
theorem addToQueue_dedup_by_id :
    (∀ (q : List QueueItem) (j : Job),
      q.any (fun it => it.job.id == j.id) = true → addToQueue [j] q = q) ∧
    (∀ (q : List QueueItem) (j : Job),
      q.any (fun it => it.job.id == j.id) = false →
        addToQueue [j] q = q ++ [⟨j, 0⟩]) ∧
    (∀ (jobs : List Job) (q : List QueueItem), ∃ ext,
      addToQueue jobs q = q ++ ext ∧ ∀ it ∈ ext, it.retryCount = 0) := by
  have step : ∀ (q : List QueueItem) (j : Job) (js : List Job),
      addToQueue (j :: js) q =
        addToQueue js
          (if q.any (fun it => it.job.id == j.id) then q else q ++ [⟨j, 0⟩]) :=
    fun _ _ _ => rfl
  have base : ∀ q, addToQueue [] q = q := fun _ => rfl
  refine ⟨fun q j h => ?_, fun q j h => ?_, fun jobs => ?_⟩
  · rw [step, if_pos h, base]
  · rw [step, if_neg (by simp [h]), base]
  · induction jobs with
    | nil => exact fun q => ⟨[], by rw [base q, List.append_nil], by simp⟩
    | cons j js ih =>
      intro q
      cases h : q.any (fun it => it.job.id == j.id) with
      | true =>
        obtain ⟨ext, he, hr⟩ := ih q
        exact ⟨ext, by rw [step, if_pos h]; exact he, hr⟩
      | false =>
        obtain ⟨ext, he, hr⟩ := ih (q ++ [⟨j, 0⟩])
        refine ⟨⟨j, 0⟩ :: ext, ?_, ?_⟩
        · rw [step, if_neg (by simp [h]), he, List.append_assoc]
          rfl
        · intro it hit
          rcases List.mem_cons.mp hit with h1 | h2
          · rw [h1]
          · exact hr it h2

/-- Witness for C9: re-enqueueing jobA is a no-op, enqueueing jobB appends it
with retryCount 0, and the batch [jobA, jobB] extends the queue at the back. -/
theorem addToQueue_dedup_by_id_witness :
    addToQueue [jobA] [⟨jobA, 0⟩] = [⟨jobA, 0⟩] ∧
    addToQueue [jobB] [⟨jobA, 0⟩] = [⟨jobA, 0⟩, ⟨jobB, 0⟩] ∧
    ∃ ext, addToQueue [jobA, jobB] [⟨jobA, 1⟩] = [⟨jobA, 1⟩] ++ ext ∧
      ∀ it ∈ ext, it.retryCount = 0 :=
  ⟨addToQueue_dedup_by_id.1 [⟨jobA, 0⟩] jobA (by decide),
   addToQueue_dedup_by_id.2.1 [⟨jobA, 0⟩] jobB (by decide),
   addToQueue_dedup_by_id.2.2 [jobA, jobB] [⟨jobA, 1⟩]⟩

/-- C10: whenever the guard lets processQueue start its loop, the
isProcessing flag is false again in the state the run leaves behind — on
every exit path, including a loop-body exception — so a later call is not
rejected as already running. -/
theorem processQueue_resets_isProcessing (evs : List AttemptEvent)
    (s : ApplicatorState) (h1 : s.isProcessing = false) (h2 : s.isPaused = false)
    (h3 : s.loginState.required = false) :
    (processQueue evs s).1.isProcessing = false := by
  simp [processQueue, h1, h2, h3]

/-- Witness for C10: a run over an empty queue leaves isProcessing false. -/
theorem processQueue_resets_isProcessing_witness :
    (processQueue [] emptyState).1.isProcessing = false :=
  processQueue_resets_isProcessing [] emptyState rfl rfl rfl

/-- C1: when the dequeued item's attempt reports login_required, processQueue
pushes the very same work item (same job, same retryCount) back to the front
of the queue, breaks out of the loop leaving the rest of the queue untouched
after the single dequeue, the automation status reports the frozen-for-auth
flag as true, and any further processQueue call on the frozen state returns
without dequeuing anything. -/
theorem processQueue_login_freezes (s : ApplicatorState) (item : QueueItem)
    (rest : List QueueItem) (ev : AttemptEvent) (evs : List AttemptEvent)
    (url msg : Option String)
    (hq : s.queue = item :: rest)
    (hp : s.isProcessing = false) (hpa : s.isPaused = false)
    (hl : s.loginState.required = false)
    (hstep : ev.step = .handlerOk (.loginRequired url msg))
    (hrate : (canApply (getRateLimitConfig item.job.platform) ev.now
      (s.usage item.job.platform)).1.allowed = true) :
    (processQueue (ev :: evs) s).2 = none ∧
    (processQueue (ev :: evs) s).1.queue = item :: rest ∧
    (getAutomationStatus (processQueue (ev :: evs) s).1).loginRequired = true ∧
    (processQueue (ev :: evs) s).1.dequeueTrace =
      s.dequeueTrace ++ [(item.job.id, pageRetained s.activePage)] ∧
    (∀ evs2, processQueue evs2 (processQueue (ev :: evs) s).1 =
      ((processQueue (ev :: evs) s).1, none)) := by
  cases hpg : pageRetained s.activePage <;>
    simp_all [processQueue, processLoop, applyToJob, outcomeEffects, storeStatus,
      finallyStep, getAutomationStatus, HandlerOutcome.toResult]

/-- Witness for C1: a two-item queue whose first attempt hits a login wall
keeps both items queued in order and reports the frozen flag. -/
theorem processQueue_login_freezes_witness :
    (processQueue [⟨tNow, .handlerOk (.loginRequired none none)⟩]
      { emptyState with queue := [⟨jobA, 0⟩, ⟨jobB, 0⟩] }).1.queue =
      [⟨jobA, 0⟩, ⟨jobB, 0⟩] ∧
    (getAutomationStatus (processQueue [⟨tNow, .handlerOk (.loginRequired none none)⟩]
      { emptyState with queue := [⟨jobA, 0⟩, ⟨jobB, 0⟩] }).1).loginRequired = true := by
  have h := processQueue_login_freezes
    { emptyState with queue := [⟨jobA, 0⟩, ⟨jobB, 0⟩] } ⟨jobA, 0⟩ [⟨jobB, 0⟩]
    ⟨tNow, .handlerOk (.loginRequired none none)⟩ [] none none rfl rfl rfl rfl rfl
    (by decide)
  exact ⟨h.2.1, h.2.2.1⟩

/-- C3: a dequeued item whose attempt ends Failed is re-appended at the back
with retryCount incremented by one and no terminal failed status is written
when its retryCount is 0 or 1 and the failure does not mention bot detection;
with retryCount at least 2, or a bot-detection failure, the job is written as
terminally failed with the recorded reason and is not requeued. -/
theorem processQueue_failed_retry_policy (s : ApplicatorState) (job : Job)
    (rc : Nat) (rest : List QueueItem) (ev : AttemptEvent) (msg : String)
    (err : Option String)
    (hq : s.queue = ⟨job, rc⟩ :: rest)
    (hp : s.isProcessing = false) (hpa : s.isPaused = false)
    (hl : s.loginState.required = false)
    (hstep : ev.step = .handlerOk (.failed msg err))
    (hrate : (canApply (getRateLimitConfig job.platform) ev.now
      (s.usage job.platform)).1.allowed = true) :
    (rc < 2 → errorMentionsBotDetection err = false →
      (processQueue [ev] s).1.queue = rest ++ [⟨job, rc + 1⟩] ∧
      (processQueue [ev] s).1.storeTrace =
        s.storeTrace ++ [.status job.id .applying none]) ∧
    ((2 ≤ rc ∨ errorMentionsBotDetection err = true) →
      (processQueue [ev] s).1.queue = rest ∧
      (processQueue [ev] s).1.storeTrace =
        s.storeTrace ++ [.status job.id .applying none,
          .status job.id .failed err]) := by
  constructor
  · intro h1 h2
    cases hpg : pageRetained s.activePage <;>
      simp_all [processQueue, processLoop, applyToJob, outcomeEffects, storeStatus,
        storeInputs, finallyStep, HandlerOutcome.toResult]
  · intro h12
    rcases h12 with h1 | h1
    · cases hpg : pageRetained s.activePage <;>
        simp_all [processQueue, processLoop, applyToJob, outcomeEffects, storeStatus,
          storeInputs, finallyStep, HandlerOutcome.toResult,
          show ¬ rc < 2 from Nat.not_lt.mpr h1]
    · cases hpg : pageRetained s.activePage <;>
        simp_all [processQueue, processLoop, applyToJob, outcomeEffects, storeStatus,
          storeInputs, finallyStep, HandlerOutcome.toResult]

/-- Witness for C3: a first failure is requeued at the back with retryCount
1; a third failure (retryCount 2) is written as terminally failed. -/
theorem processQueue_failed_retry_policy_witness :
    ((processQueue [⟨tNow, .handlerOk (.failed "boom" (some "boom"))⟩]
        { emptyState with queue := [⟨jobA, 0⟩, ⟨jobB, 0⟩] }).1.queue =
      [⟨jobB, 0⟩] ++ [⟨jobA, 1⟩]) ∧
    ((processQueue [⟨tNow, .handlerOk (.failed "boom" (some "boom"))⟩]
        { emptyState with queue := [⟨jobA, 2⟩] }).1.storeTrace =
      [] ++ [.status "job-A" .applying none,
        .status "job-A" .failed (some "boom")]) := by
  constructor
  · exact (processQueue_failed_retry_policy
      { emptyState with queue := [⟨jobA, 0⟩, ⟨jobB, 0⟩] } jobA 0 [⟨jobB, 0⟩]
      ⟨tNow, .handlerOk (.failed "boom" (some "boom"))⟩ "boom" (some "boom")
      rfl rfl rfl rfl rfl (by decide)).1 (by decide) (by decide) |>.1
  · exact (processQueue_failed_retry_policy
      { emptyState with queue := [⟨jobA, 2⟩] } jobA 2 []
      ⟨tNow, .handlerOk (.failed "boom" (some "boom"))⟩ "boom" (some "boom")
      rfl rfl rfl rfl rfl (by decide)).2 (Or.inl (by decide)) |>.2

/-- C4 (bug witness): when the navigation or handler throws and the error
screenshot taken inside applyToJob's catch block throws as well, the second
exception escapes applyToJob and aborts the queue run: the loop reports an
escaped exception, the second queued job is never started (its status never
reaches applying) and it is left in the queue. -/
theorem processQueue_catch_screenshot_escape :
    (processQueue
        [⟨tNow, .throwEarly "Navigation timeout" (some "Screenshot failed")⟩,
         ⟨tNow, .handlerOk .submitted⟩]
        { emptyState with queue := [⟨jobA, 0⟩, ⟨jobB, 0⟩] }).2 =
      some "Screenshot failed" ∧
    (processQueue
        [⟨tNow, .throwEarly "Navigation timeout" (some "Screenshot failed")⟩,
         ⟨tNow, .handlerOk .submitted⟩]
        { emptyState with queue := [⟨jobA, 0⟩, ⟨jobB, 0⟩] }).1.storeTrace =
      [.status "job-A" .applying none] ∧
    (processQueue
        [⟨tNow, .throwEarly "Navigation timeout" (some "Screenshot failed")⟩,
         ⟨tNow, .handlerOk .submitted⟩]
        { emptyState with queue := [⟨jobA, 0⟩, ⟨jobB, 0⟩] }).1.queue =
      [⟨jobB, 0⟩] ∧
    (processQueue
        [⟨tNow, .throwEarly "Navigation timeout" (some "Screenshot failed")⟩,
         ⟨tNow, .handlerOk .submitted⟩]
        { emptyState with queue := [⟨jobA, 0⟩, ⟨jobB, 0⟩] }).1.isProcessing =
      false := by
  decide

/-- C5: the rate limiter's recordApplication is invoked during an attempt
exactly when the rate check allowed the attempt and the platform handler
reported Submitted — never for NeedsInput, Failed or login_required reports —
both in applyToJob and in the page-retained resume of continueAfterLogin;
each invocation increments the hourly and daily counters of the
window-rolled entry by one and stamps the last-submission time with now. -/
theorem recordApplication_iff_submitted :
    (∀ (ev : AttemptEvent) (job : Job) (s : ApplicatorState),
      (applyToJob ev job s).1.recordTrace =
        s.recordTrace ++
          (if (canApply (getRateLimitConfig job.platform) ev.now
                (s.usage job.platform)).1.allowed && stepSubmitted ev.step
           then [job.platform] else [])) ∧
    (∀ (now : Int) (rstep : ResumeStep) (fresh : AttemptEvent)
        (s : ApplicatorState) (jid : String) (job : Job),
      s.loginState.required = true → s.loginState.jobId = some jid →
      getJob s jid = some job → pageRetained s.activePage = true →
      (continueAfterLogin now rstep fresh s).1.recordTrace =
        s.recordTrace ++
          (if rstep = .handlerOk .submitted then [job.platform] else [])) ∧
    (∀ (now : Int) (u0 : Option PlatformUsage),
      (recordApplication now u0).hourlyCount =
        (checkAndResetLimits now (getUsage now u0)).hourlyCount + 1 ∧
      (recordApplication now u0).dailyCount =
        (checkAndResetLimits now (getUsage now u0)).dailyCount + 1 ∧
      (recordApplication now u0).lastApplicationTime = now) := by
  refine ⟨fun ev job s => ?_, fun now rstep fresh s jid job h1 h2 h3 h4 => ?_,
    fun now u0 => ⟨rfl, rfl, rfl⟩⟩
  · obtain ⟨now, step⟩ := ev
    cases hra : (canApply (getRateLimitConfig job.platform) now
        (s.usage job.platform)).1.allowed
    · simp [applyToJob, hra, finallyStep, apply_ite]
    · cases step with
      | throwEarly m cs =>
        cases cs <;>
          simp [applyToJob, hra, finallyStep, stepSubmitted, apply_ite]
      | botDetected =>
        simp [applyToJob, hra, finallyStep, stepSubmitted, apply_ite]
      | handlerOk o =>
        cases o <;>
          simp [applyToJob, hra, finallyStep, stepSubmitted, outcomeEffects,
            doRecordApplication, storeStatus, apply_ite]
      | throwLate o m cs =>
        cases o <;> cases cs <;>
          simp [applyToJob, hra, finallyStep, stepSubmitted, outcomeEffects,
            doRecordApplication, storeStatus, apply_ite]
  · cases rstep with
    | throwDuring m =>
      simp [continueAfterLogin, h1, h2, h3, h4, storeStatus]
    | handlerOk o =>
      cases o <;>
        simp [continueAfterLogin, h1, h2, h3, h4, storeStatus, storeInputs,
          doRecordApplication]

/-- Witness for C5: a Submitted report records exactly one application for
the job's platform both on a fresh attempt and on a page-retained resume,
and the recorded entry carries the incremented counters and the timestamp. -/
theorem recordApplication_iff_submitted_witness :
    ((applyToJob ⟨tNow, .handlerOk .submitted⟩ jobA emptyState).1.recordTrace =
      emptyState.recordTrace ++
        (if (canApply (getRateLimitConfig jobA.platform) tNow
              (emptyState.usage jobA.platform)).1.allowed &&
            stepSubmitted (AttemptStep.handlerOk .submitted)
         then [jobA.platform] else [])) ∧
    ((continueAfterLogin tNow (.handlerOk .submitted)
        ⟨tNow, .handlerOk .submitted⟩ frozenState).1.recordTrace =
      frozenState.recordTrace ++
        (if (ResumeStep.handlerOk .submitted) = .handlerOk .submitted
         then [jobA.platform] else [])) ∧
    (recordApplication tNow none).hourlyCount =
      (checkAndResetLimits tNow (getUsage tNow none)).hourlyCount + 1 :=
  ⟨recordApplication_iff_submitted.1 ⟨tNow, .handlerOk .submitted⟩ jobA emptyState,
   recordApplication_iff_submitted.2.1 tNow (.handlerOk .submitted)
     ⟨tNow, .handlerOk .submitted⟩ frozenState "job-A" jobA rfl rfl (by decide) rfl,
   (recordApplication_iff_submitted.2.2 tNow none).1⟩

/-- C6 (counterexample): the Failed outcome produced by the bot-detection
check is terminal — the job is written as terminally failed, not retried —
yet applyToJob returns without closing the page, so the next work item is
dequeued while the page is still active. -/
theorem botDetection_failed_leaves_page_open :
    (applyToJob ⟨tNow, .botDetected⟩ jobA emptyState).2 =
      .ok ⟨false, "job-A", .failed, "Bot detection triggered",
        some "Bot detection triggered. Please try again later.", none, []⟩ ∧
    (applyToJob ⟨tNow, .botDetected⟩ jobA emptyState).1.activePage =
      some ⟨false⟩ ∧
    (processQueue [⟨tNow, .botDetected⟩, ⟨tNow, .handlerOk .submitted⟩]
        { emptyState with queue := [⟨jobA, 0⟩, ⟨jobB, 0⟩] }).1.dequeueTrace =
      [("job-A", false), ("job-B", true)] ∧
    (processQueue [⟨tNow, .botDetected⟩, ⟨tNow, .handlerOk .submitted⟩]
        { emptyState with queue := [⟨jobA, 0⟩, ⟨jobB, 0⟩] }).1.storeTrace =
      [.status "job-A" .applying none,
       .status "job-A" .failed
         (some "Bot detection triggered. Please try again later."),
       .status "job-B" .applying none,
       .status "job-B" .applied none] := by
  decide

/-- C6 (amended): for every attempt that passes the rate check, is not the
bot-detection failure path, and yields a terminal result other than
login_required — a handler-reported Submitted, NeedsInput or Failed, or a
caught exception converted to Failed — applyToJob leaves no active page
behind; only the bot-detection failure (and a rate-denied failure, excluded
here by the rate hypothesis) returns early with the page still open, to be
reused by the next attempt rather than duplicated. -/
theorem applyToJob_closes_page_on_terminal (ev : AttemptEvent) (job : Job)
    (s : ApplicatorState) (r : ApplicationResult)
    (hrate : (canApply (getRateLimitConfig job.platform) ev.now
      (s.usage job.platform)).1.allowed = true)
    (hbot : ev.step ≠ .botDetected)
    (hok : (applyToJob ev job s).2 = .ok r)
    (hst : r.status ≠ .login_required) :
    (applyToJob ev job s).1.activePage = none := by
  obtain ⟨now, step⟩ := ev
  cases step with
  | throwEarly m cs =>
    cases cs <;>
      simp_all [applyToJob, finallyStep, apply_ite]
  | botDetected => exact absurd rfl hbot
  | handlerOk o =>
    cases o with
    | loginRequired u m =>
      simp [applyToJob, hrate, outcomeEffects, finallyStep, storeStatus] at hok
      exact absurd (by rw [← hok]) hst
    | submitted =>
      simp_all [applyToJob, finallyStep, outcomeEffects, doRecordApplication,
        storeStatus, HandlerOutcome.toResult, apply_ite]
    | needsInput fs =>
      simp_all [applyToJob, finallyStep, outcomeEffects, doRecordApplication,
        storeStatus, HandlerOutcome.toResult, apply_ite]
    | failed m e =>
      simp_all [applyToJob, finallyStep, outcomeEffects, doRecordApplication,
        storeStatus, HandlerOutcome.toResult, apply_ite]
  | throwLate o m cs =>
    cases o <;> cases cs <;>
      simp_all [applyToJob, finallyStep, outcomeEffects, doRecordApplication,
        storeStatus, apply_ite]

/-- Witness for C6 (amended): a handler-reported Failed leaves no active
page behind. -/
theorem applyToJob_closes_page_on_terminal_witness :
    (applyToJob ⟨tNow, .handlerOk (.failed "boom" (some "boom"))⟩ jobA
      emptyState).1.activePage = none :=
  applyToJob_closes_page_on_terminal
    ⟨tNow, .handlerOk (.failed "boom" (some "boom"))⟩ jobA emptyState
    ⟨false, "job-A", .failed, "boom", some "boom", none, []⟩
    (by decide) (by decide) (by decide) (by decide)

/-- C7: signalling resume while a job is retained but no page is retained
(activePage null or closed) makes continueAfterLogin discard the interrupt
state and run a complete fresh applyToJob attempt on the job from the
cleared state; it returns that attempt's result rather than null or an
error of its own. -/
theorem continueAfterLogin_noPage_fresh_attempt (now : Int) (rstep : ResumeStep)
    (fresh : AttemptEvent) (s : ApplicatorState) (jid : String) (job : Job)
    (h1 : s.loginState.required = true) (h2 : s.loginState.jobId = some jid)
    (h3 : getJob s jid = some job) (h4 : pageRetained s.activePage = false) :
    continueAfterLogin now rstep fresh s =
      ((applyToJob fresh job
          { storeStatus s job.id .applying none with loginState := LoginState.clear }).1,
       some (applyToJob fresh job
          { storeStatus s job.id .applying none with
            loginState := LoginState.clear }).2) ∧
    (continueAfterLogin now rstep fresh s).2 ≠ none := by
  have h : continueAfterLogin now rstep fresh s =
      ((applyToJob fresh job
          { storeStatus s job.id .applying none with loginState := LoginState.clear }).1,
       some (applyToJob fresh job
          { storeStatus s job.id .applying none with
            loginState := LoginState.clear }).2) := by
    simp [continueAfterLogin, h1, h2, h3, h4, storeStatus]
  exact ⟨h, by rw [h]; simp⟩

/-- Witness for C7: resuming the frozen state whose page was closed
externally re-runs jobA from scratch and yields a result. -/
theorem continueAfterLogin_noPage_fresh_attempt_witness :
    continueAfterLogin tNow (.handlerOk .submitted)
        ⟨tNow, .handlerOk .submitted⟩ frozenNoPageState =
      ((applyToJob ⟨tNow, .handlerOk .submitted⟩ jobA
          { storeStatus frozenNoPageState jobA.id .applying none with
            loginState := LoginState.clear }).1,
       some (applyToJob ⟨tNow, .handlerOk .submitted⟩ jobA
          { storeStatus frozenNoPageState jobA.id .applying none with
            loginState := LoginState.clear }).2) :=
  (continueAfterLogin_noPage_fresh_attempt tNow (.handlerOk .submitted)
    ⟨tNow, .handlerOk .submitted⟩ frozenNoPageState "job-A" jobA
    rfl rfl (by decide) rfl).1

/-- C8: on a page-retained resume the coordinator clears the interrupt state
before navigating, so after continueAfterLogin returns, the state reports
frozen-for-auth if and only if the handler again reported login_required;
in particular a navigation or handler exception during the resume leaves the
interrupt state cleared, not stuck frozen. -/
theorem continueAfterLogin_clears_unless_renewed (now : Int) (rstep : ResumeStep)
    (fresh : AttemptEvent) (s : ApplicatorState) (jid : String) (job : Job)
    (h1 : s.loginState.required = true) (h2 : s.loginState.jobId = some jid)
    (h3 : getJob s jid = some job) (h4 : pageRetained s.activePage = true) :
    (continueAfterLogin now rstep fresh s).1.loginState.required =
      rstepRenewsLogin rstep := by
  cases rstep with
  | throwDuring m =>
    simp [continueAfterLogin, h1, h2, h3, h4, storeStatus, rstepRenewsLogin,
      LoginState.clear]
  | handlerOk o =>
    cases o <;>
      simp [continueAfterLogin, h1, h2, h3, h4, storeStatus, storeInputs,
        doRecordApplication, rstepRenewsLogin, LoginState.clear]

/-- Witness for C8: an exception thrown while resuming the frozen state
leaves the frozen-for-auth flag cleared, and a renewed login_required report
restores it. -/
theorem continueAfterLogin_clears_unless_renewed_witness :
    ((continueAfterLogin tNow (.throwDuring "resume crash")
        ⟨tNow, .handlerOk .submitted⟩ frozenState).1.loginState.required =
      rstepRenewsLogin (.throwDuring "resume crash")) ∧
    ((continueAfterLogin tNow (.handlerOk (.loginRequired none none))
        ⟨tNow, .handlerOk .submitted⟩ frozenState).1.loginState.required =
      rstepRenewsLogin (.handlerOk (.loginRequired none none))) :=
  ⟨continueAfterLogin_clears_unless_renewed tNow (.throwDuring "resume crash")
     ⟨tNow, .handlerOk .submitted⟩ frozenState "job-A" jobA rfl rfl (by decide) rfl,
   continueAfterLogin_clears_unless_renewed tNow (.handlerOk (.loginRequired none none))
     ⟨tNow, .handlerOk .submitted⟩ frozenState "job-A" jobA rfl rfl (by decide) rfl⟩

end LazyApply
